import Mathlib

/-!
Verification development for `core-ajv-schema-validator` (src/src/index.js).

The library has three functions: the public `validateSchema` orchestrator, the
private `_getSchemaFromSpecificationDoc` resolver and `_validateSchemaAJV`
annotator, plus `_random`.  They operate on JavaScript/JSON values and delegate
structural validation to the external AJV engine and path access to lodash.

Shallow embedding choices:
* `JsVal` models JavaScript values reachable here: JSON values plus the
  distinguished `undefined` (lodash `_.get` yields `undefined` on a missing
  path, and the resolver's fallback logic branches on `=== undefined`).
* lodash `_.get` / `_.set` / `_.cloneDeep`, `JSON.stringify`, and AJV are
  external collaborators (spec section 1 treats them as assumed primitives);
  they are modelled from their documented behaviour: `lget`/`lset` are
  path-based read / write-with-intermediate-creation, `cloneDeep` of an
  immutable value is the value itself, and the AJV engine is an explicit
  function parameter `engine : JsVal → JsVal → Option (List AjvError)`
  returning `none` when the data is valid (AJV's `validate.errors` is `null`
  exactly then).
* In-place mutation is made visible by threading the mutable cells through the
  functions: the annotation loop state is the pair (caller's `data` object,
  `dataMismatches` clone), and `validateSchema` returns the post-call contents
  of the `path` locator, `data` and `schema` cells next to its result.
-/

/-- A JavaScript value as this library manipulates them: the JSON constructors
plus `undefined` (distinct from `null`; produced by missing-property reads). -/
inductive JsVal where
  | undefined
  | null
  | bool (b : Bool)
  | num (n : Int)
  | str (s : String)
  | arr (xs : List JsVal)
  | obj (fields : List (String × JsVal))

/-- First-match field lookup in an object's field list (JS objects have unique
keys, so first match is the match). `none` models an absent property. -/
def lookupField : List (String × JsVal) → String → Option JsVal
  | [], _ => none
  | (k, v) :: rest, key => if k = key then some v else lookupField rest key

/-- JS property assignment `o[k] = v`: updates the value in place when the key
exists (keeping its position) and appends the key otherwise. -/
def objAssign : List (String × JsVal) → String → JsVal → List (String × JsVal)
  | [], k, v => [(k, v)]
  | (k', v') :: rest, k, v =>
      if k' = k then (k', v) :: rest else (k', v') :: objAssign rest k v

/-- JS object spread `{ ...base, ...fs }`: assign every field of `fs` over
`base`, in order (later keys overwrite earlier ones). -/
def objSpread (base : List (String × JsVal)) (fs : List (String × JsVal)) :
    List (String × JsVal) :=
  fs.foldl (fun acc kv => objAssign acc kv.1 kv.2) base

/-- A canonical array index in the lodash sense (`/^(?:0|[1-9]\d*)$/`):
digits only, no leading zero except `"0"` itself. -/
def parseIndex (k : String) : Option Nat :=
  match k.data with
  | [] => none
  | c :: cs =>
      if (c :: cs).all (fun d => d.isDigit) then
        if c = '0' ∧ cs ≠ [] then none
        else some ((c :: cs).foldl (fun acc d => acc * 10 + (d.toNat - '0'.toNat)) 0)
      else none

/-- Models lodash `_.get(object, path)` with the path already split into
segments: walk the segments, returning `undefined` as soon as a segment is
missing or the current value is not a container (lodash's `baseGet` stops and
returns `undefined` when the walk dies early). -/
def lget : JsVal → List String → JsVal
  | v, [] => v
  | .obj fs, k :: rest =>
      match lookupField fs k with
      | some w => lget w rest
      | none => .undefined
  | .arr xs, k :: rest =>
      match parseIndex k with
      | some i =>
          match xs.get? i with
          | some w => lget w rest
          | none => .undefined
      | none => .undefined
  | _, _ :: _ => .undefined

/-- Models lodash `_.get(object, path, defaultValue)`: the default is used
exactly when the plain lookup yields `undefined` (an explicit `null` or any
other falsy value at the path is returned as is). -/
def lgetOr (v : JsVal) (path : List String) (dflt : JsVal) : JsVal :=
  match lget v path with
  | .undefined => dflt
  | w => w

/-- Containers are the values lodash `_.set` descends into. -/
def isContainer : JsVal → Bool
  | .obj _ => true
  | .arr _ => true
  | _ => false

/-- The fresh intermediate container lodash `_.set` creates when a path segment
is missing: an array when the next segment is an index, an object otherwise. -/
def emptyChild (nextKey : String) : JsVal :=
  if (parseIndex nextKey).isSome then .arr [] else .obj []

/-- Set index `i` of a list, extending with `undefined` holes when `i` is past
the end (JS sparse-array assignment `xs[i] = x`). -/
def listSetPad (xs : List JsVal) (i : Nat) (x : JsVal) : List JsVal :=
  if i < xs.length then xs.set i x
  else xs ++ List.replicate (i - xs.length) JsVal.undefined ++ [x]

/-- Models lodash `_.set(object, path, x)` (as a pure function returning the
updated object): walk the segments, creating intermediate containers for
missing or non-container steps, and assign at the final segment.  A primitive
root is returned unchanged (lodash: `if (!isObject(object)) return object`).
A non-index segment on an array would set a string-keyed property on the array
object, which this JSON value model cannot represent; the array is left
unchanged there (no claim exercises that corner). -/
def lset (v : JsVal) (path : List String) (x : JsVal) : JsVal :=
  match path with
  | [] => v
  | k :: rest =>
      match v with
      | .obj fs =>
          match rest with
          | [] => .obj (objAssign fs k x)
          | k' :: _ =>
              let child :=
                match lookupField fs k with
                | some w => if isContainer w then w else emptyChild k'
                | none => emptyChild k'
              .obj (objAssign fs k (lset child rest x))
      | .arr xs =>
          match parseIndex k with
          | some i =>
              match rest with
              | [] => .arr (listSetPad xs i x)
              | k' :: _ =>
                  let child :=
                    match xs.get? i with
                    | some w => if isContainer w then w else emptyChild k'
                    | none => emptyChild k'
                  .arr (listSetPad xs i (lset child rest x))
          | none => .arr xs
      | _ => v

/-- Models lodash `_.cloneDeep`: on immutable values a deep copy is the value
itself; the copy/original distinction is carried by which component of the
annotation state a read or write targets. -/
def cloneDeep (v : JsVal) : JsVal := v

/-- JS truthiness, for `schema.swagger || schema.openapi` style tests. -/
def truthy : JsVal → Bool
  | .undefined => false
  | .null => false
  | .bool b => b
  | .num n => n ≠ 0
  | .str s => s ≠ ""
  | .arr _ => true
  | .obj _ => true

/-- JS loose `x == null`: true exactly for `null` and `undefined`. -/
def isNullish : JsVal → Bool
  | .null => true
  | .undefined => true
  | _ => false

/-- Recognizer for the `undefined` result of a lookup. -/
def isUndefined : JsVal → Bool
  | .undefined => true
  | _ => false

/-- JS property access `o.k` / `o[k]` for a string key: `undefined` on
non-objects and missing keys. -/
def jsIndex : JsVal → String → JsVal
  | .obj fs, k => (lookupField fs k).getD .undefined
  | _, _ => .undefined

/-- Split a string on `'.'`, accumulator-style; models lodash `castPath` /
`stringToPath` for the dot-separated paths this library builds (note
`splitPath "" = [""]`, matching lodash, where `""` is a plain key). -/
def splitCharAux (cs : List Char) (acc : List Char) : List String :=
  match cs with
  | [] => [String.mk acc.reverse]
  | x :: xs =>
      if x = '.' then String.mk acc.reverse :: splitCharAux xs []
      else splitCharAux xs (x :: acc)

/-- The dot-separated path split used by the lodash model. -/
def splitPath (s : String) : List String := splitCharAux s.data []

/-- Models JS `String.prototype.toLowerCase` (character-wise). -/
def jsToLowerCase (s : String) : String := String.mk (s.data.map Char.toLower)

/-- Escape a string for `JSON.stringify` output (backslash and quote; the
strings this library renders contain no control characters). -/
def escapeJsonString (s : String) : String :=
  String.mk (s.data.flatMap fun c =>
    if c = '\\' then ['\\', '\\']
    else if c = '"' then ['\\', '"']
    else [c])

mutual

/-- Models `JSON.stringify(v)`: `none` is JS `undefined` (the result for the
value `undefined`); inside arrays an `undefined` element renders as `null`,
inside objects an `undefined`-valued field is dropped. -/
def jsonStringify : JsVal → Option String
  | .undefined => none
  | .null => some "null"
  | .bool b => some (cond b "true" "false")
  | .num n => some (toString n)
  | .str s => some ("\"" ++ escapeJsonString s ++ "\"")
  | .arr xs => some ("[" ++ String.intercalate "," (jsonStringifyList xs) ++ "]")
  | .obj fs => some ("\x7b" ++ String.intercalate "," (jsonStringifyFields fs) ++ "\x7d")

/-- Array elements, `undefined` rendered as `null`. -/
def jsonStringifyList : List JsVal → List String
  | [] => []
  | x :: xs => ((jsonStringify x).getD "null") :: jsonStringifyList xs

/-- Object members, `undefined`-valued ones dropped. -/
def jsonStringifyFields : List (String × JsVal) → List String
  | [] => []
  | (k, v) :: fs =>
      match jsonStringify v with
      | some sv => ("\"" ++ escapeJsonString k ++ "\":" ++ sv) :: jsonStringifyFields fs
      | none => jsonStringifyFields fs

end

/-- Replace every `'"'` by `'\''`; models `.replaceAll('"', "'")` (single
character pattern and replacement, so a character map is exact). -/
def replaceQuotes (s : String) : String :=
  String.mk (s.data.map fun c => if c = '"' then '\'' else c)

/-- Models `String(JSON.stringify(value)).replaceAll('"', "'")` from the
annotator: `JSON.stringify(undefined)` is `undefined`, which `String(...)`
renders as the text `undefined`. -/
def renderValue (v : JsVal) : String :=
  replaceQuotes ((jsonStringify v).getD "undefined")

/-- One AJV validation error, with the fields the annotator consumes:
`instancePath` (slash-delimited pointer), `keyword`, `message`, and
`params.missingProperty` (meaningful when `keyword = "required"`). -/
structure AjvError where
  instancePath : String
  keyword : String
  message : String
  missingProperty : String

/-- The issue-style configuration actually used by the annotator. -/
structure IssuesStyles where
  iconPropertyError : String
  iconPropertyMissing : String

/-- `issuesStylesDefault` from the source. -/
def issuesStylesDefault : IssuesStyles :=
  { iconPropertyError := "⚠️", iconPropertyMissing := "❌" }

/-- The caller-supplied `issuesStyles` argument: each icon optionally given. -/
structure IssuesStylesArg where
  iconPropertyError : Option String := none
  iconPropertyMissing : Option String := none

/-- Models `issuesStyles = { ...issuesStylesDefault, ...issuesStyles }`:
caller-supplied fields win field by field. -/
def mergeStyles (a : IssuesStylesArg) : IssuesStyles :=
  { iconPropertyError := a.iconPropertyError.getD issuesStylesDefault.iconPropertyError,
    iconPropertyMissing := a.iconPropertyMissing.getD issuesStylesDefault.iconPropertyMissing }

/-- Models `error.instancePath.replace(/^\//, '').split('/').join('.')`:
drop one leading slash, then turn the remaining slashes into dots. -/
def dottedInstancePath (p : String) : String :=
  String.mk ((match p.data with
    | '/' :: rest => rest
    | l => l).map fun c => if c = '/' then '.' else c)

/-- The body of the annotator's `errors.forEach` loop (index.js lines
574-591), as a pure function: `data` is the caller's original object (every
`_.get` in the body targets it), `dm` is the `dataMismatches` clone (the
single `_.set` targets it), and the updated clone is returned. -/
def applyError (icons : IssuesStyles) (data dm : JsVal) (e : AjvError) : JsVal :=
  let instancePath := dottedInstancePath e.instancePath
  let value := lget data (splitPath instancePath)
  if e.keyword = "required" then
    let missingProperty := e.missingProperty
    let instancePath' :=
      if instancePath = "" then missingProperty
      else instancePath ++ "." ++ missingProperty
    lset dm (splitPath instancePath')
      (.str (icons.iconPropertyMissing ++ " Missing property '" ++ missingProperty ++ "'"))
  else
    lset dm (splitPath instancePath)
      (.str (icons.iconPropertyError ++ " " ++ renderValue value ++ " " ++ e.message))

/-- One loop iteration over the two mutable cells the loop can reach: the
first component is the caller's `data` object (only read), the second the
`dataMismatches` clone (only written). -/
def annotStep (icons : IssuesStyles) (st : JsVal × JsVal) (e : AjvError) : JsVal × JsVal :=
  (st.1, applyError icons st.1 st.2 e)

/-- Result of `_validateSchemaAJV`, extended with `dataAfter`: the contents of
the caller's `data` cell when the function returns (mutation, were there any,
would surface here). -/
structure AjvOutcome where
  valid : Bool
  errors : Option (List AjvError)
  dataMismatches : JsVal
  dataAfter : JsVal

/-- Models `_validateSchemaAJV(schema, data, issuesStyles)` (index.js lines
560-595).  The external AJV engine is the explicit parameter `engine`; running
it models `ajv.compile(schema)` followed by `validate(data)`, and its result
models `validate.errors` (`none` is AJV's `null`, produced exactly when the
data is valid, so `valid` is its `isNone`). -/
def _validateSchemaAJV (engine : JsVal → JsVal → Option (List AjvError))
    (schema data : JsVal) (issuesStyles : IssuesStyles) : AjvOutcome :=
  let errors := engine schema data
  let valid := errors.isNone
  let start := (data, cloneDeep data)
  let final :=
    match errors with
    | some errs => errs.foldl (annotStep issuesStyles) start
    | none => start
  { valid := valid, errors := errors, dataMismatches := final.2, dataAfter := final.1 }

/-- The process-wide error taxonomy (spec section 7); the source throws plain
`Error`s, so the constructors whose messages a claim inspects carry them. -/
inductive VError where
  | MissingSchema
  | InvalidPathParameters
  | ResponseDefinitionNotFound (msg : String)
  | SchemaDefinitionNotFound (msg : String)

/-- The `path` locator argument; `none` fields model absent / `null` ones.
`method` and `status` are defaulted in place by `validateSchema`. -/
structure PathLoc where
  endpoint : Option String
  method : Option String
  status : Option Nat

/-- Models the in-place defaulting `path.method = path.method || 'GET'` and
`path.status = path.status || 200` (`||`, so the falsy `""` method and `0`
status are replaced too). -/
def defaultPathLoc (p : PathLoc) : PathLoc :=
  { p with
    method := some (match p.method with
      | some m => if m = "" then "GET" else m
      | none => "GET"),
    status := some (match p.status with
      | some s => if s = 0 then 200 else s
      | none => 200) }

/-- Models `_random()` given the string `Math.random().toString(36)` rendered
for the draw: `.substring(10)` keeps the characters from index 10 on (the
output is ASCII, so UTF-16 units are characters).  Note the result is usually
3 or fewer characters — `"0."` plus at most about 11 base-36 fraction digits —
and is empty for short renderings such as `(0.5).toString(36) = "0.i"`. -/
def _random (mathRandomStr : String) : String := String.mk (mathRandomStr.data.drop 10)

/-- The generated schema identifier (index.js line 481):
`` `${_random()}:${endpoint}:${method}:${status}` `` with `method` already
lowercased. -/
def schemaId (draw endpoint method : String) (status : Nat) : String :=
  _random draw ++ ":" ++ endpoint ++ ":" ++ method ++ ":" ++ toString status

/-- The exact-status lookup path `paths.<endpoint>.<method>.responses.<status>`. -/
def pathStatusStr (endpoint method : String) (status : Nat) : String :=
  "paths." ++ endpoint ++ "." ++ method ++ ".responses." ++ toString status

/-- The fallback lookup path `paths.<endpoint>.<method>.responses.default`. -/
def pathDefaultStr (endpoint method : String) : String :=
  "paths." ++ endpoint ++ "." ++ method ++ ".responses.default"

/-- The resolver's response-definition lookup (index.js lines 502-506):
`_.get(schema, pathStatus, _.get(schema, pathDefault))`. -/
def responseDefLookup (schema : JsVal) (endpoint method : String) (status : Nat) : JsVal :=
  lgetOr schema (splitPath (pathStatusStr endpoint method status))
    (lget schema (splitPath (pathDefaultStr endpoint method)))

/-- The resolver's final merge (index.js lines 521-525):
`{ $id, ...schemaDef, ...componentsDefinitions }`.  The generated `$id` comes
first and the spreads after it, so a schema-body field named `$id` overwrites
the generated one, while the registry entry (spread last) overwrites any
same-named body field. -/
def mergeResolvedSchema (id : String) (schemaDef : JsVal)
    (registry : Option (String × JsVal)) : JsVal :=
  let base := [("$id", JsVal.str id)]
  let withBody :=
    match schemaDef with
    | .obj fs => objSpread base fs
    | _ => base
  match registry with
  | some (k, v) => .obj (objAssign withBody k v)
  | none => .obj withBody

/-- Models `_getSchemaFromSpecificationDoc(schema, { endpoint, method, status })`
(index.js lines 470-528); `draw` is the rendering of the `Math.random()` value
consumed by the `_random()` call inside.  For a document with neither version
marker (never reached from `validateSchema`) the lodash path argument is the
JS `undefined`, which lodash coerces to the single key `"undefined"`. -/
def _getSchemaFromSpecificationDoc (draw : String) (schema : JsVal) (p : PathLoc) :
    Except VError JsVal :=
  match p.endpoint, p.method, p.status with
  | some endpoint, some method0, some status =>
      let method := jsToLowerCase method0
      let id := schemaId draw endpoint method status
      let pick : Option (String × (String × JsVal)) :=
        if truthy (jsIndex schema "swagger") then
          some ("schema", ("definitions", jsIndex schema "definitions"))
        else if truthy (jsIndex schema "openapi") then
          some ("content.application/json.schema", ("components", jsIndex schema "components"))
        else none
      let pathStatus := pathStatusStr endpoint method status
      let pathDefault := pathDefaultStr endpoint method
      let responseDef := responseDefLookup schema endpoint method status
      if isUndefined responseDef then
        .error (.ResponseDefinitionNotFound
          ("No response definition found for path '" ++ pathStatus ++ "' or "
            ++ pathDefault ++ "'!"))
      else
        let schemaProperty := (pick.map Prod.fst).getD "undefined"
        let schemaDef := lget responseDef (splitPath schemaProperty)
        if isUndefined schemaDef then
          .error (.SchemaDefinitionNotFound
            ("No schema definition found for path '" ++ pathStatus ++ "."
              ++ schemaProperty ++ "'!"))
        else
          .ok (mergeResolvedSchema id schemaDef (pick.map Prod.snd))
  | _, _, _ => .error .InvalidPathParameters

/-- The public result record `{ errors, dataMismatches, issuesStyles }`. -/
structure ValidationOutcome where
  errors : Option (List AjvError)
  dataMismatches : JsVal
  issuesStyles : IssuesStyles

/-- What one call to `validateSchema` leaves behind: its return value or
thrown error, plus the post-call contents of the three caller-owned cells the
source could mutate (`path` is mutated — defaulting in place; `data` and
`schema` are not). -/
structure CallResult where
  result : Except VError ValidationOutcome
  pathAfter : Option PathLoc
  dataAfter : JsVal
  schemaAfter : JsVal

/-- Models the public `validateSchema(data, schema, path, issuesStyles)`
(index.js lines 390-415), with the AJV engine and the `Math.random()`
rendering as explicit parameters.  The locator is defaulted in place before
the document check; the resolver runs only when a locator was supplied and the
document carries a `swagger` or `openapi` marker. -/
def validateSchema (engine : JsVal → JsVal → Option (List AjvError)) (draw : String)
    (data schema : JsVal) (path : Option PathLoc) (issuesStyles : IssuesStylesArg) :
    CallResult :=
  if isNullish schema then
    { result := .error .MissingSchema, pathAfter := path,
      dataAfter := data, schemaAfter := schema }
  else
    let pathAfter := path.map defaultPathLoc
    let resolved : Except VError JsVal :=
      match pathAfter with
      | some p =>
          if truthy (jsIndex schema "swagger") || truthy (jsIndex schema "openapi") then
            _getSchemaFromSpecificationDoc draw schema p
          else .ok schema
      | none => .ok schema
    match resolved with
    | .error e =>
        { result := .error e, pathAfter := pathAfter,
          dataAfter := data, schemaAfter := schema }
    | .ok schemaRes =>
        let icons := mergeStyles issuesStyles
        let r := _validateSchemaAJV engine schemaRes data icons
        { result := .ok { errors := r.errors, dataMismatches := r.dataMismatches,
                          issuesStyles := icons },
          pathAfter := pathAfter, dataAfter := r.dataAfter, schemaAfter := schema }

/-! ### Fixture documents for witnesses and counterexamples -/

/-- A Swagger document whose response schema body carries its own `$id`. -/
def docBodyId : JsVal := JsVal.obj [
  ("swagger", JsVal.str "2.0"),
  ("paths", JsVal.obj [
    ("/u", JsVal.obj [
      ("get", JsVal.obj [
        ("responses", JsVal.obj [
          ("200", JsVal.obj [
            ("schema", JsVal.obj [("$id", JsVal.str "body-id"),
                                  ("type", JsVal.str "object")])])])])])]),
  ("definitions", JsVal.obj [("D", JsVal.obj [])])]

/-- A Swagger document from the source's doc example (response schema by
reference). -/
def docUsers : JsVal := JsVal.obj [
  ("swagger", JsVal.str "2.0"),
  ("paths", JsVal.obj [
    ("/users", JsVal.obj [
      ("get", JsVal.obj [
        ("responses", JsVal.obj [
          ("200", JsVal.obj [
            ("schema", JsVal.obj [("$ref", JsVal.str "#/definitions/User")])])])])])]),
  ("definitions", JsVal.obj [("User", JsVal.obj [("type", JsVal.str "object")])])]

/-- A Swagger document with a `swagger` marker but no `paths` at all. -/
def docEmptyPaths : JsVal := JsVal.obj [("swagger", JsVal.str "2.0")]

/-- A Swagger document whose exact-status response entry is an explicit
`null`, while a `default` entry exists and holds a schema. -/
def docNullStatus : JsVal := JsVal.obj [
  ("swagger", JsVal.str "2.0"),
  ("paths", JsVal.obj [
    ("/u", JsVal.obj [
      ("get", JsVal.obj [
        ("responses", JsVal.obj [
          ("200", JsVal.null),
          ("default", JsVal.obj [("schema", JsVal.obj [])])])])])])]

/-! ### Helper lemmas -/

/-- The annotation loop never writes the first state component: the caller's
`data` object survives any error list unchanged. -/
theorem annotStep_fold_fst (icons : IssuesStyles) (errs : List AjvError) :
    ∀ d c : JsVal, (List.foldl (annotStep icons) (d, c) errs).1 = d := by
  induction errs with
  | nil => intro d c; rfl
  | cons e rest ih => intro d c; exact ih d (applyError icons d c e)

/-- `_validateSchemaAJV` returns the caller's `data` cell unchanged. -/
theorem validateSchemaAJV_dataAfter (engine : JsVal → JsVal → Option (List AjvError))
    (schema data : JsVal) (icons : IssuesStyles) :
    (_validateSchemaAJV engine schema data icons).dataAfter = data := by
  unfold _validateSchemaAJV
  cases engine schema data with
  | none => rfl
  | some errs => exact annotStep_fold_fst icons errs data (cloneDeep data)

/-- Assigning a key makes it present with the assigned value. -/
theorem lookupField_objAssign_self (l : List (String × JsVal)) (k : String) (v : JsVal) :
    lookupField (objAssign l k v) k = some v := by
  induction l with
  | nil => simp [objAssign, lookupField]
  | cons kv rest ih =>
      obtain ⟨k', v'⟩ := kv
      by_cases h : k' = k
      · simp [objAssign, lookupField, h]
      · simp [objAssign, lookupField, h, ih]

/-- Assigning one key leaves every other key's lookup unchanged. -/
theorem lookupField_objAssign_ne (l : List (String × JsVal)) (k k' : String) (v : JsVal)
    (h : k' ≠ k) : lookupField (objAssign l k v) k' = lookupField l k' := by
  induction l with
  | nil =>
      have hne : ¬(k = k') := fun hh => h hh.symm
      simp [objAssign, lookupField, hne]
  | cons kv rest ih =>
      obtain ⟨k0, v0⟩ := kv
      by_cases h0 : k0 = k
      · subst h0
        have hne : ¬(k0 = k') := fun hh => h hh.symm
        simp [objAssign, lookupField, hne]
      · simp [objAssign, lookupField, h0, ih]

/-- Spreading fields that do not contain a key leaves that key's lookup at the
base value. -/
theorem lookupField_objSpread_absent (fs : List (String × JsVal)) :
    ∀ (base : List (String × JsVal)) (key : String), lookupField fs key = none →
      lookupField (objSpread base fs) key = lookupField base key := by
  induction fs with
  | nil => intro base key _; rfl
  | cons kv rest ih =>
      intro base key habs
      obtain ⟨k0, v0⟩ := kv
      by_cases h0 : k0 = key
      · simp [lookupField, h0] at habs
      · simp only [lookupField, if_neg h0] at habs
        show lookupField (objSpread (objAssign base k0 v0) rest) key = _
        rw [ih (objAssign base k0 v0) key habs,
          lookupField_objAssign_ne base k0 key v0 (fun hh => h0 hh.symm)]

/-! ### Claims -/

/-- C1: for a plain JSON Schema (no locator supplied) and data the engine
accepts as valid (its error list is `null`), `validateSchema` returns
`errors = null` — `none`, not an empty list — and `dataMismatches` equal to
the input `data` (the untouched deep clone). -/
theorem validateSchema_valid_gives_null_errors
    (engine : JsVal → JsVal → Option (List AjvError)) (draw : String)
    (data schema : JsVal) (styles : IssuesStylesArg)
    (hns : isNullish schema = false) (hvalid : engine schema data = none) :
    (validateSchema engine draw data schema none styles).result
      = Except.ok { errors := none, dataMismatches := data,
                    issuesStyles := mergeStyles styles } := by
  simp [validateSchema, hns, _validateSchemaAJV, hvalid, cloneDeep]

/-- C1 witness: a concrete engine-accepted call. -/
theorem validateSchema_valid_gives_null_errors_witness :
    (validateSchema (fun _ _ => none) "0.i" (JsVal.obj [("a", JsVal.num 1)])
        (JsVal.obj [("type", JsVal.str "object")]) none {}).result
      = Except.ok { errors := none,
                    dataMismatches := JsVal.obj [("a", JsVal.num 1)],
                    issuesStyles := { iconPropertyError := "⚠️",
                                      iconPropertyMissing := "❌" } } :=
  validateSchema_valid_gives_null_errors (fun _ _ => none) "0.i"
    (JsVal.obj [("a", JsVal.num 1)]) (JsVal.obj [("type", JsVal.str "object")]) {} rfl rfl

/-- C2: the generated identifiers can collide across calls.  `Math.random()`
may render as `"0.i"` (the value 0.5) in one call and `"0.9"` (0.25) in
another; both leave `_random` with the empty token, so two calls with the
locator `/users`:`get`:`200` produce the identical identifier — and the whole
resolver result coincides — contradicting the claimed no-collision guarantee
(and the source's own `unique $id` comment). -/
theorem schemaId_collision :
    _random "0.i" = "" ∧ _random "0.9" = "" ∧ ("0.i" : String) ≠ "0.9" ∧
    schemaId "0.i" "/users" "get" 200 = schemaId "0.9" "/users" "get" 200 ∧
    _getSchemaFromSpecificationDoc "0.i" docUsers ⟨some "/users", some "GET", some 200⟩
      = _getSchemaFromSpecificationDoc "0.9" docUsers ⟨some "/users", some "GET", some 200⟩ :=
  ⟨rfl, rfl, by decide, rfl, rfl⟩

/-- C5: the response-definition lookup uses the `default` entry exactly when
the exact-status lookup is `undefined`; any present value at the exact status
key — an explicit `null` included — is used as is and the `default` entry's
value is not consulted. -/
theorem responseDefLookup_fallback_iff (schema : JsVal) (endpoint method : String)
    (status : Nat) :
    (lget schema (splitPath (pathStatusStr endpoint method status)) = JsVal.undefined →
      responseDefLookup schema endpoint method status
        = lget schema (splitPath (pathDefaultStr endpoint method)))
    ∧ (lget schema (splitPath (pathStatusStr endpoint method status)) ≠ JsVal.undefined →
      responseDefLookup schema endpoint method status
        = lget schema (splitPath (pathStatusStr endpoint method status))) := by
  constructor
  · intro h
    simp [responseDefLookup, lgetOr, h]
  · intro h
    unfold responseDefLookup lgetOr
    cases hv : lget schema (splitPath (pathStatusStr endpoint method status)) with
    | undefined => exact absurd hv h
    | _ => simp_all

/-- C5 witness: an explicit `null` at the exact status key is used even though
a different `default` entry exists. -/
theorem responseDefLookup_fallback_iff_witness :
    responseDefLookup docNullStatus "/u" "get" 200 = JsVal.null ∧
    lget docNullStatus (splitPath (pathDefaultStr "/u" "get"))
      = JsVal.obj [("schema", JsVal.obj [])] :=
  ⟨(responseDefLookup_fallback_iff docNullStatus "/u" "get" 200).2
      (fun h => JsVal.noConfusion h), rfl⟩

/-- C4: a call to `validateSchema` returns the caller's `data` and `schema`
cells exactly as passed; the only caller-visible mutation is the locator,
whose `method` and `status` fields come back defaulted in place. -/
theorem validateSchema_frame (engine : JsVal → JsVal → Option (List AjvError))
    (draw : String) (data schema : JsVal) (path : Option PathLoc)
    (styles : IssuesStylesArg) (hns : isNullish schema = false) :
    (validateSchema engine draw data schema path styles).dataAfter = data
    ∧ (validateSchema engine draw data schema path styles).schemaAfter = schema
    ∧ (validateSchema engine draw data schema path styles).pathAfter
        = path.map defaultPathLoc := by
  unfold validateSchema
  rw [hns]
  simp only [Bool.false_eq_true, if_false]
  cases hres : (match path.map defaultPathLoc with
    | some p =>
        if truthy (jsIndex schema "swagger") || truthy (jsIndex schema "openapi") then
          _getSchemaFromSpecificationDoc draw schema p
        else Except.ok schema
    | none => Except.ok schema : Except VError JsVal) with
  | error e => exact ⟨rfl, rfl, rfl⟩
  | ok schemaRes =>
      exact ⟨validateSchemaAJV_dataAfter engine schemaRes data (mergeStyles styles),
        rfl, rfl⟩

/-- C4 witness: a concrete call whose locator omits `method` and `status`;
they come back defaulted to `"GET"` and `200`, and `data`/`schema` come back
untouched. -/
theorem validateSchema_frame_witness :
    (validateSchema (fun _ _ => none) "0.i" (JsVal.obj [("a", JsVal.num 1)])
        docUsers (some ⟨some "/users", none, none⟩) {}).dataAfter
      = JsVal.obj [("a", JsVal.num 1)]
    ∧ (validateSchema (fun _ _ => none) "0.i" (JsVal.obj [("a", JsVal.num 1)])
        docUsers (some ⟨some "/users", none, none⟩) {}).schemaAfter = docUsers
    ∧ (validateSchema (fun _ _ => none) "0.i" (JsVal.obj [("a", JsVal.num 1)])
        docUsers (some ⟨some "/users", none, none⟩) {}).pathAfter
      = some ⟨some "/users", some "GET", some 200⟩ :=
  validateSchema_frame (fun _ _ => none) "0.i" (JsVal.obj [("a", JsVal.num 1)])
    docUsers (some ⟨some "/users", none, none⟩) {} rfl

/-- C8: when neither the exact-status path nor the `default` path resolves,
the resolver fails with `ResponseDefinitionNotFound` whose message names both
attempted lookup paths, and no schema is produced. -/
theorem resolver_response_not_found (draw : String) (schema : JsVal)
    (endpoint method0 : String) (status : Nat)
    (h1 : lget schema (splitPath (pathStatusStr endpoint (jsToLowerCase method0) status))
        = JsVal.undefined)
    (h2 : lget schema (splitPath (pathDefaultStr endpoint (jsToLowerCase method0)))
        = JsVal.undefined) :
    _getSchemaFromSpecificationDoc draw schema ⟨some endpoint, some method0, some status⟩
      = Except.error (VError.ResponseDefinitionNotFound
          ("No response definition found for path '"
            ++ pathStatusStr endpoint (jsToLowerCase method0) status ++ "' or "
            ++ pathDefaultStr endpoint (jsToLowerCase method0) ++ "'!")) := by
  unfold _getSchemaFromSpecificationDoc
  simp [responseDefLookup, lgetOr, h1, h2, isUndefined]

/-- C8 witness: a marker-only document with no `paths` at all fails with the
message naming both attempted locations. -/
theorem resolver_response_not_found_witness :
    _getSchemaFromSpecificationDoc "0.i" docEmptyPaths ⟨some "/users", some "GET", some 200⟩
      = Except.error (VError.ResponseDefinitionNotFound
          "No response definition found for path 'paths./users.get.responses.200' or paths./users.get.responses.default'!") :=
  resolver_response_not_found "0.i" docEmptyPaths "/users" "GET" 200 rfl rfl

/-- C9: with a `swagger`/`openapi` version marker but no locator argument,
`validateSchema` does not fail with `InvalidPathParameters`: resolution is
skipped and the full specification document itself is what the engine
receives as the schema. -/
theorem validateSchema_no_locator_skips_resolution
    (engine : JsVal → JsVal → Option (List AjvError)) (draw : String)
    (data schema : JsVal) (styles : IssuesStylesArg)
    (hns : isNullish schema = false)
    (_hmarker : (truthy (jsIndex schema "swagger") || truthy (jsIndex schema "openapi"))
        = true) :
    (validateSchema engine draw data schema none styles).result
      = Except.ok { errors := engine schema data,
                    dataMismatches :=
                      (_validateSchemaAJV engine schema data (mergeStyles styles)).dataMismatches,
                    issuesStyles := mergeStyles styles } := by
  simp [validateSchema, hns, _validateSchemaAJV]

/-- C9 witness: a Swagger document with no locator validates against the
document itself and succeeds. -/
theorem validateSchema_no_locator_skips_resolution_witness :
    (validateSchema (fun _ _ => none) "0.i" (JsVal.obj [("a", JsVal.num 1)])
        docEmptyPaths none {}).result
      = Except.ok { errors := none,
                    dataMismatches := JsVal.obj [("a", JsVal.num 1)],
                    issuesStyles := { iconPropertyError := "⚠️",
                                      iconPropertyMissing := "❌" } } :=
  validateSchema_no_locator_skips_resolution (fun _ _ => none) "0.i"
    (JsVal.obj [("a", JsVal.num 1)]) docEmptyPaths {} rfl rfl

/-- C3: for a non-`required` error, whatever annotations have already been
written into the `dataMismatches` copy by any earlier errors, the value
rendered into the new annotation string is read from the untouched original
`data` at the error's instance path — so the annotation written for one error
never alters the value rendered for another, in either order. -/
theorem applyError_reads_original (icons : IssuesStyles) (data dm : JsVal)
    (errs : List AjvError) (e : AjvError) (h : e.keyword ≠ "required") :
    applyError icons data (List.foldl (annotStep icons) (data, dm) errs).2 e
      = lset (List.foldl (annotStep icons) (data, dm) errs).2
          (splitPath (dottedInstancePath e.instancePath))
          (.str (icons.iconPropertyError ++ " "
            ++ renderValue (lget data (splitPath (dottedInstancePath e.instancePath)))
            ++ " " ++ e.message)) := by
  simp [applyError, h]

/-- C3 witness: a first error annotates `name` in the copy; the annotation
then written for a second error at the same path still renders the original
`25`, not the first annotation string. -/
theorem applyError_reads_original_witness :
    applyError issuesStylesDefault (JsVal.obj [("name", JsVal.num 25)])
        (List.foldl (annotStep issuesStylesDefault)
          (JsVal.obj [("name", JsVal.num 25)], JsVal.obj [("name", JsVal.num 25)])
          [{ instancePath := "/name", keyword := "type",
             message := "must be string", missingProperty := "" }]).2
        { instancePath := "/name", keyword := "minimum",
          message := "must be >= 100", missingProperty := "" }
      = JsVal.obj [("name", JsVal.str "⚠️ 25 must be >= 100")] :=
  (applyError_reads_original issuesStylesDefault (JsVal.obj [("name", JsVal.num 25)])
      (JsVal.obj [("name", JsVal.num 25)])
      [{ instancePath := "/name", keyword := "type",
         message := "must be string", missingProperty := "" }]
      { instancePath := "/name", keyword := "minimum",
        message := "must be >= 100", missingProperty := "" }
      (by decide)).trans rfl

/-- C6: for a `required` error, the annotation is written at the instance
path with the missing property name appended (not at the parent itself), and
its string is the missing-property icon followed by the message naming the
missing property; the caller's `data` object is left unmodified by the whole
annotator. -/
theorem applyError_required (icons : IssuesStyles) (data dm : JsVal) (e : AjvError)
    (h : e.keyword = "required") :
    (applyError icons data dm e
      = lset dm
          (splitPath (if dottedInstancePath e.instancePath = "" then e.missingProperty
            else dottedInstancePath e.instancePath ++ "." ++ e.missingProperty))
          (.str (icons.iconPropertyMissing ++ " Missing property '"
            ++ e.missingProperty ++ "'")))
    ∧ ∀ (engine : JsVal → JsVal → Option (List AjvError)) (schema : JsVal),
        (_validateSchemaAJV engine schema data icons).dataAfter = data := by
  constructor
  · simp [applyError, h]
  · intro engine schema
    exact validateSchemaAJV_dataAfter engine schema data icons

/-- C6 witness: the spec's example — an object requiring `name` and `age`
with `age` missing gets `dataMismatches.age` set to the missing-property icon
and message, and the `data` cell survives the full annotator run unchanged. -/
theorem applyError_required_witness :
    (applyError issuesStylesDefault (JsVal.obj [("name", JsVal.str "John Wick")])
        (JsVal.obj [("name", JsVal.str "John Wick")])
        { instancePath := "", keyword := "required",
          message := "must have required property 'age'", missingProperty := "age" }
      = JsVal.obj [("name", JsVal.str "John Wick"),
                   ("age", JsVal.str "❌ Missing property 'age'")])
    ∧ (_validateSchemaAJV
        (fun _ _ => some [{ instancePath := "", keyword := "required",
                            message := "must have required property 'age'",
                            missingProperty := "age" }])
        (JsVal.obj [("type", JsVal.str "object")])
        (JsVal.obj [("name", JsVal.str "John Wick")])
        issuesStylesDefault).dataAfter = JsVal.obj [("name", JsVal.str "John Wick")] :=
  ⟨((applyError_required issuesStylesDefault (JsVal.obj [("name", JsVal.str "John Wick")])
      (JsVal.obj [("name", JsVal.str "John Wick")])
      { instancePath := "", keyword := "required",
        message := "must have required property 'age'", missingProperty := "age" }
      rfl).1).trans rfl,
   (applyError_required issuesStylesDefault (JsVal.obj [("name", JsVal.str "John Wick")])
      (JsVal.obj [("name", JsVal.str "John Wick")])
      { instancePath := "", keyword := "required",
        message := "must have required property 'age'", missingProperty := "age" }
      rfl).2 _ _⟩

/-- Folds the literal rendering of `undefined` into its space-separated
surroundings. -/
theorem strAppend_fold_undefined (a b : String) :
    a ++ " " ++ "undefined" ++ " " ++ b = a ++ " undefined " ++ b := by
  simp only [String.append_assoc]
  congr 1

/-- C7 counterexample: the resolver's output does not always carry the
generated identifier — a schema body field named `$id` survives the merge and
replaces it (the generated identifier is listed first and the body is spread
after it). -/
theorem resolver_id_overridden_cex :
    _getSchemaFromSpecificationDoc "0.i" docBodyId ⟨some "/u", some "GET", some 200⟩
      = Except.ok (JsVal.obj [("$id", JsVal.str "body-id"),
          ("type", JsVal.str "object"),
          ("definitions", JsVal.obj [("D", JsVal.obj [])])])
    ∧ ("body-id" : String) ≠ schemaId "0.i" "/u" "get" 200 :=
  ⟨rfl, by decide⟩

/-- C7 (amended): the registry entry, spread last, overwrites any same-named
schema-body field; the generated identifier is the `$id` of the result only
when the schema body itself has no `$id` field (a body `$id` overrides it, as
the counterexample shows). -/
theorem mergeResolvedSchema_overwrite (id : String) (fs : List (String × JsVal))
    (k : String) (v : JsVal) (hk : k ≠ "$id") (hid : lookupField fs "$id" = none) :
    jsIndex (mergeResolvedSchema id (.obj fs) (some (k, v))) k = v
    ∧ jsIndex (mergeResolvedSchema id (.obj fs) (some (k, v))) "$id" = JsVal.str id := by
  constructor
  · simp [mergeResolvedSchema, jsIndex, lookupField_objAssign_self]
  · have h1 := lookupField_objAssign_ne (objSpread [("$id", JsVal.str id)] fs) k "$id" v
      (Ne.symm hk)
    have h2 := lookupField_objSpread_absent fs [("$id", JsVal.str id)] "$id" hid
    simp [mergeResolvedSchema, jsIndex, h1, h2, lookupField]

/-- C7 witness: a body that does carry a `definitions` field still comes out
with the document registry under `definitions`, and with the generated
identifier as `$id` since the body has no `$id` of its own. -/
theorem mergeResolvedSchema_overwrite_witness :
    jsIndex (mergeResolvedSchema ":/u:get:200"
        (JsVal.obj [("type", JsVal.str "object"), ("definitions", JsVal.str "body-defs")])
        (some ("definitions", JsVal.obj [("D", JsVal.obj [])]))) "definitions"
      = JsVal.obj [("D", JsVal.obj [])]
    ∧ jsIndex (mergeResolvedSchema ":/u:get:200"
        (JsVal.obj [("type", JsVal.str "object"), ("definitions", JsVal.str "body-defs")])
        (some ("definitions", JsVal.obj [("D", JsVal.obj [])]))) "$id"
      = JsVal.str ":/u:get:200" :=
  mergeResolvedSchema_overwrite ":/u:get:200"
    [("type", JsVal.str "object"), ("definitions", JsVal.str "body-defs")]
    "definitions" (JsVal.obj [("D", JsVal.obj [])]) (by decide) rfl

/-- C10: a non-`required` error at the root (empty instance path) does not
overwrite the root of the copy: the annotation lands under an empty-string
property key of the copied object, and the value rendered into the annotation
is `undefined` (the lookup of the `""` key), not the root data value. -/
theorem applyError_root_error (icons : IssuesStyles) (fs gs : List (String × JsVal))
    (e : AjvError) (hkw : e.keyword ≠ "required") (hroot : e.instancePath = "")
    (habs : lookupField fs "" = none) :
    applyError icons (.obj fs) (.obj gs) e
      = .obj (objAssign gs ""
          (.str (icons.iconPropertyError ++ " undefined " ++ e.message))) := by
  have hdot : dottedInstancePath e.instancePath = "" := by rw [hroot]; rfl
  have hval : lget (JsVal.obj fs) (splitPath (dottedInstancePath e.instancePath))
      = JsVal.undefined := by
    rw [hdot]
    simp [splitPath, splitCharAux, lget, habs]
  simp only [applyError, if_neg hkw]
  rw [hval]
  have hrv : renderValue JsVal.undefined = "undefined" := rfl
  rw [hrv, strAppend_fold_undefined, hdot]
  rfl

/-- C10 witness: a root-level type error on `{a: 1}` is filed under the `""`
key of the copy, rendering `undefined`, with the root object kept. -/
theorem applyError_root_error_witness :
    applyError issuesStylesDefault (JsVal.obj [("a", JsVal.num 1)])
        (JsVal.obj [("a", JsVal.num 1)])
        { instancePath := "", keyword := "type",
          message := "must be array", missingProperty := "" }
      = JsVal.obj [("a", JsVal.num 1),
                   ("", JsVal.str "⚠️ undefined must be array")] :=
  (applyError_root_error issuesStylesDefault [("a", JsVal.num 1)] [("a", JsVal.num 1)]
      { instancePath := "", keyword := "type",
        message := "must be array", missingProperty := "" }
      (by decide) rfl rfl).trans rfl
